import Mathlib

/-!
Verification development for the `observ` demo script (`src/demo.py`).

The script configures OpenTelemetry providers, registers an exit hook,
and loops forever emitting one parent span with a nested child span,
a counter increment, a histogram sample, conditional log lines and two
sleeps per iteration.  We embed the observable behaviour of the script as
event traces: the loop body becomes a function from the iteration
counter and the sampled latency to a list of events, the random latency
source becomes an explicit oracle in `[0, 1)`, and the `shutdown`
function becomes a function from the three module-level provider
handles to the list of flush/shutdown actions it performs.
-/

namespace Demo

/-- Log severity levels used by the script (`logging` levels). -/
inductive LogLevel where
  | debug
  | info
  | warning
  deriving DecidableEq, Repr

/-- Span attribute values set by the script: `request.id` is an integer,
`request.latency_ms` a float (modelled as `ℚ`). -/
inductive AttrVal where
  | nat (n : Nat)
  | rat (q : ℚ)
  deriving DecidableEq, Repr

/-- Observable events of one run of the demo script, in program order. -/
inductive Event where
  | spanStart (name : String)
  | spanEnd (name : String)
  | setAttribute (key : String) (v : AttrVal)
  | logRecord (lvl : LogLevel) (msg : String)
  | counterAdd (name : String) (amount : Nat) (attrs : List (String × String))
  | histogramRecord (name : String) (value : ℚ) (attrs : List (String × String))
  | sleep (seconds : ℚ)
  | printProgress (count : Nat) (latency : ℚ)
  | printLine (s : String)
  deriving DecidableEq, Repr

/-- Constant `OTLP_ENDPOINT` (src/demo.py line 32). -/
def OTLP_ENDPOINT : String := "http://localhost:4318"

/-- Constant `SERVICE_NAME` (src/demo.py line 33). -/
def SERVICE_NAME : String := "python-demo"

/-- Model of the Python call `random.uniform(a, b)`, which returns `a + (b - a) * random()`
with `random()` drawn from `[0, 1)`; the draw is made explicit as the
oracle argument `u`. -/
def uniform (a b u : ℚ) : ℚ := a + (b - a) * u

/-- One iteration of the `while True:` body of `main`
(src/demo.py lines 134-170), given the iteration counter `count`
(already incremented, line 135) and the sampled `latency` (line 139). -/
def loopBody (count : Nat) (latency : ℚ) : List Event :=
  [Event.spanStart "demo-operation",
   Event.setAttribute "request.id" (AttrVal.nat count),
   Event.setAttribute "request.latency_ms" (AttrVal.rat latency)]
  ++ (if 150 < latency then
        [Event.logRecord LogLevel.warning "High latency detected"]
      else
        [Event.logRecord LogLevel.debug "Processing request"])
  ++ [Event.spanStart "process-data",
      Event.sleep (latency / 1000),
      Event.spanEnd "process-data",
      Event.counterAdd "demo.requests" 1 [("status", "success")],
      Event.histogramRecord "demo.latency" latency [("endpoint", "/demo")],
      Event.logRecord LogLevel.info "Request completed",
      Event.spanEnd "demo-operation",
      Event.printProgress count latency,
      Event.sleep 2]

/-- One iteration with the latency drawn through `random.uniform(10, 200)`
from the oracle value `u`. -/
def loopIter (count : Nat) (u : ℚ) : List Event :=
  loopBody count (uniform 10 200 u)

/-- The concatenated trace of the first `n` iterations of the loop,
with `lat k` the latency sampled in the `k`-th (0-based) iteration;
`count` starts at 0 and is incremented at the top of each iteration. -/
def runEvents (lat : Nat → ℚ) : Nat → List Event
  | 0 => []
  | n + 1 => runEvents lat n ++ loopBody (n + 1) (lat n)

/-- The three module-level provider handles
(`_logger_provider`, `_trace_provider`, `_meter_provider`,
src/demo.py lines 36-38); `true` means the handle is set (not `None`). -/
structure TelemetryState where
  logger_provider : Bool
  trace_provider : Bool
  meter_provider : Bool
  deriving DecidableEq, Repr

/-- The three providers, in the order `shutdown` visits them. -/
inductive Provider where
  | logs
  | traces
  | metrics
  deriving DecidableEq, Repr

/-- A call performed by `shutdown`: `force_flush` or `shutdown` on one
provider. -/
inductive Action where
  | force_flush (p : Provider)
  | shutdown (p : Provider)
  deriving DecidableEq, Repr

/-- The provider a shutdown-time action acts on. -/
def Action.provider : Action → Provider
  | Action.force_flush p => p
  | Action.shutdown p => p

/-- Whether a given provider handle is set in the state. -/
def providerConfigured (s : TelemetryState) : Provider → Bool
  | Provider.logs => s.logger_provider
  | Provider.traces => s.trace_provider
  | Provider.metrics => s.meter_provider

/-- The `shutdown` function (src/demo.py lines 98-108): for each handle
that is set, call `force_flush` then `shutdown`, visiting the logger,
tracer and meter providers in that order. -/
def shutdown (s : TelemetryState) : List Action :=
  (if s.logger_provider then
    [Action.force_flush Provider.logs, Action.shutdown Provider.logs]
   else [])
  ++ (if s.trace_provider then
    [Action.force_flush Provider.traces, Action.shutdown Provider.traces]
   else [])
  ++ (if s.meter_provider then
    [Action.force_flush Provider.metrics, Action.shutdown Provider.metrics]
   else [])

/-- Configuration fixed by `setup_telemetry` (src/demo.py lines 44-95):
all three providers are created, the exporter endpoints are built by
string concatenation from `OTLP_ENDPOINT`, the metric reader exports
every 5000 ms, and `shutdown` is registered with `atexit`. -/
structure SetupResult where
  state : TelemetryState
  atexitRegistered : Bool
  resourceAttrs : List (String × String)
  traceEndpoint : String
  metricEndpoint : String
  logEndpoint : String
  exportIntervalMillis : Nat
  deriving DecidableEq, Repr

/-- The result of `setup_telemetry` (src/demo.py lines 44-95). -/
def setup_telemetry : SetupResult :=
  ⟨⟨true, true, true⟩,
   true,
   [("service.name", SERVICE_NAME),
    ("service.namespace", "homelab"),
    ("deployment.environment", "local")],
   OTLP_ENDPOINT ++ "/v1/traces",
   OTLP_ENDPOINT ++ "/v1/metrics",
   OTLP_ENDPOINT ++ "/v1/logs",
   5000⟩

/-- An instrument created by `meter.create_counter` /
`meter.create_histogram`. -/
structure Instrument where
  name : String
  description : String
  unit : String
  deriving DecidableEq, Repr

/-- Instrument `request_counter` (src/demo.py lines 118-121); `create_counter` is
called without a unit, which defaults to the empty string. -/
def request_counter : Instrument :=
  ⟨"demo.requests", "Number of demo requests", ""⟩

/-- Instrument `latency_histogram` (src/demo.py lines 122-126). -/
def latency_histogram : Instrument :=
  ⟨"demo.latency", "Request latency in ms", "ms"⟩

/-- Exceptions that can reach the `try` in `main`. -/
inductive PyExc where
  | keyboardInterrupt
  | other (name : String)
  deriving DecidableEq, Repr

/-- Which exceptions the `except KeyboardInterrupt:` clause of `main`
(src/demo.py line 172) catches. -/
def mainHandles : PyExc → Bool
  | PyExc.keyboardInterrupt => true
  | PyExc.other _ => false

/-- The events `main` performs inside the `except KeyboardInterrupt:`
handler before returning (src/demo.py lines 173-174). -/
def onKeyboardInterrupt : List Event :=
  [Event.logRecord LogLevel.info "Shutdown requested by user",
   Event.printLine "\nShutting down..."]

/-- Whether a warning-level log record occurs in a trace. -/
def warningEmitted (es : List Event) : Bool :=
  es.any fun e =>
    match e with
    | Event.logRecord LogLevel.warning _ => true
    | _ => false

/-- Whether a debug-level log record occurs in a trace. -/
def debugEmitted (es : List Event) : Bool :=
  es.any fun e =>
    match e with
    | Event.logRecord LogLevel.debug _ => true
    | _ => false

/-- Recognizes `time.sleep` events. -/
def isSleepEvent : Event → Bool
  | Event.sleep _ => true
  | _ => false

/-- Recognizes a sleep of exactly 2 seconds (`time.sleep(2)`). -/
def isSleepTwo : Event → Bool
  | Event.sleep s => s == 2
  | _ => false

/-- Recognizes span-attribute tagging events (`span.set_attribute`). -/
def isTagEvent : Event → Bool
  | Event.setAttribute _ _ => true
  | _ => false

/-- Recognizes counter-increment events (`request_counter.add`). -/
def isCounterEvent : Event → Bool
  | Event.counterAdd _ _ _ => true
  | _ => false

/-- Recognizes histogram-record events (`latency_histogram.record`). -/
def isHistEvent : Event → Bool
  | Event.histogramRecord _ _ _ => true
  | _ => false

/-- Recognizes the start of the span with the given name. -/
def isStartOf (name : String) : Event → Bool
  | Event.spanStart n => n == name
  | _ => false

/-- Recognizes the end of the span with the given name. -/
def isEndOf (name : String) : Event → Bool
  | Event.spanEnd n => n == name
  | _ => false

/-- Greedy matcher deciding whether a trace contains a subsequence of
events satisfying the given predicates in order, i.e. whether the trace
"performs these steps in this order". -/
def stepOrderMatches : List (Event → Bool) → List Event → Bool
  | [], _ => true
  | _ :: _, [] => false
  | p :: ps, e :: es =>
      if p e then stepOrderMatches ps es else stepOrderMatches (p :: ps) es

/-- Total amount added to the counter with the given name over a trace. -/
def counterTotal (name : String) (es : List Event) : Nat :=
  (es.filterMap fun e =>
    match e with
    | Event.counterAdd n a _ => if n == name then some a else none
    | _ => none).sum

theorem counterTotal_append (name : String) (l1 l2 : List Event) :
    counterTotal name (l1 ++ l2) = counterTotal name l1 + counterTotal name l2 := by
  simp [counterTotal]

theorem counterTotal_loopBody (c : Nat) (q : ℚ) :
    counterTotal "demo.requests" (loopBody c q) = 1 := by
  by_cases h : 150 < q <;> simp [counterTotal, loopBody, h]

/-- C1: in every loop iteration, a warning-level log record is emitted
exactly when the sampled latency exceeds 150, and the conditional log of the iteration is at debug level exactly otherwise. -/
theorem C1_warning_iff_high_latency (count : Nat) (latency : ℚ) :
    warningEmitted (loopBody count latency) = decide (150 < latency) ∧
    debugEmitted (loopBody count latency) = !decide (150 < latency) := by
  by_cases h : 150 < latency <;>
    simp [loopBody, warningEmitted, debugEmitted, h]

/-- C2 counterexample: the claimed step order "sleep, tag a span,
increment a counter, record a histogram, sleep again" does not occur in
the iteration trace: at iteration 1 with oracle draw 9/19 (latency 100)
no sleep precedes the span tagging, so no subsequence matches the
claimed order. -/
theorem C2_counterexample :
    stepOrderMatches
      [isSleepEvent, isTagEvent, isCounterEvent, isHistEvent, isSleepEvent]
      (loopIter 1 (9 / 19)) = false := by
  norm_num [loopIter, uniform, loopBody, stepOrderMatches, isSleepEvent,
    isTagEvent, isCounterEvent, isHistEvent]

/-- C2 (amended): every loop iteration performs its steps in the order:
tag the span, sleep (latency-scaled), increment the counter, record the
histogram, then sleep 2 seconds. -/
theorem C2_step_order (count : Nat) (latency : ℚ) :
    stepOrderMatches
      [isTagEvent, isSleepEvent, isCounterEvent, isHistEvent, isSleepTwo]
      (loopBody count latency) = true := by
  by_cases h : 150 < latency <;>
    simp [loopBody, h, stepOrderMatches, isTagEvent, isSleepEvent,
      isCounterEvent, isHistEvent, isSleepTwo]

/-- C3: for any oracle draw `u ∈ [0, 1)`, the sampled latency
`uniform 10 200 u` lies in `[10, 200)`, the very same value is attached
as the `request.latency_ms` span attribute, recorded in the histogram,
and slept for after division by 1000; moreover every value of
`[10, 200)` is reached by some draw. -/
theorem C3_latency_range_and_reuse (count : Nat) (u : ℚ)
    (h0 : 0 ≤ u) (h1 : u < 1) :
    10 ≤ uniform 10 200 u ∧ uniform 10 200 u < 200 ∧
    Event.setAttribute "request.latency_ms" (AttrVal.rat (uniform 10 200 u))
      ∈ loopIter count u ∧
    Event.histogramRecord "demo.latency" (uniform 10 200 u)
      [("endpoint", "/demo")] ∈ loopIter count u ∧
    Event.sleep (uniform 10 200 u / 1000) ∈ loopIter count u ∧
    ∀ y : ℚ, 10 ≤ y → y < 200 → ∃ v, 0 ≤ v ∧ v < 1 ∧ uniform 10 200 v = y := by
  refine ⟨?_, ?_, ?_, ?_, ?_, ?_⟩
  · have : (0 : ℚ) ≤ 190 * u := by positivity
    simp only [uniform]
    linarith
  · have : 190 * u < 190 * 1 := by
      have : (0 : ℚ) < 190 := by norm_num
      exact mul_lt_mul_of_pos_left h1 this
    simp only [uniform]
    linarith
  · by_cases h : 150 < uniform 10 200 u <;> simp [loopIter, loopBody, h]
  · by_cases h : 150 < uniform 10 200 u <;> simp [loopIter, loopBody, h]
  · by_cases h : 150 < uniform 10 200 u <;> simp [loopIter, loopBody, h]
  · intro y hy1 hy2
    refine ⟨(y - 10) / 190, ?_, ?_, ?_⟩
    · have : (0 : ℚ) ≤ y - 10 := by linarith
      positivity
    · rw [div_lt_one (by norm_num : (0 : ℚ) < 190)]
      linarith
    · simp only [uniform]
      field_simp
      ring

/-- C4: every loop iteration opens exactly one "demo-operation" span and
exactly one "process-data" span, each closed exactly once, and the child
span both starts and ends strictly between the start and the end of the parent span. -/
theorem C4_span_nesting (count : Nat) (latency : ℚ) :
    (loopBody count latency).countP (isStartOf "demo-operation") = 1 ∧
    (loopBody count latency).countP (isEndOf "demo-operation") = 1 ∧
    (loopBody count latency).countP (isStartOf "process-data") = 1 ∧
    (loopBody count latency).countP (isEndOf "process-data") = 1 ∧
    (loopBody count latency).findIdx (isStartOf "demo-operation")
        < (loopBody count latency).findIdx (isStartOf "process-data") ∧
    (loopBody count latency).findIdx (isStartOf "process-data")
        < (loopBody count latency).findIdx (isEndOf "process-data") ∧
    (loopBody count latency).findIdx (isEndOf "process-data")
        < (loopBody count latency).findIdx (isEndOf "demo-operation") := by
  by_cases h : 150 < latency <;>
    simp [loopBody, h, isStartOf, isEndOf, List.countP_cons, List.findIdx_cons]

/-- Witness for C3 at the concrete draw 1/2 (latency 105). -/
theorem C3_witness :
    (0 ≤ (1 / 2 : ℚ) ∧ (1 / 2 : ℚ) < 1) ∧
    10 ≤ uniform 10 200 (1 / 2) ∧ uniform 10 200 (1 / 2) < 200 ∧
    Event.histogramRecord "demo.latency" (uniform 10 200 (1 / 2))
      [("endpoint", "/demo")] ∈ loopIter 1 (1 / 2) :=
  ⟨by norm_num,
   (C3_latency_range_and_reuse 1 (1 / 2) (by norm_num) (by norm_num)).1,
   (C3_latency_range_and_reuse 1 (1 / 2) (by norm_num) (by norm_num)).2.1,
   (C3_latency_range_and_reuse 1 (1 / 2) (by norm_num) (by norm_num)).2.2.2.1⟩

/-- C5: every loop iteration performs exactly one counter increment,
of amount 1 on "demo.requests" with attribute status=success, and after
`n` iterations the cumulative value of the counter is `n`. -/
theorem C5_counter_increment (lat : Nat → ℚ) (n : Nat) :
    (∀ (count : Nat) (q : ℚ),
      (loopBody count q).filter isCounterEvent =
        [Event.counterAdd "demo.requests" 1 [("status", "success")]]) ∧
    counterTotal "demo.requests" (runEvents lat n) = n := by
  constructor
  · intro count q
    by_cases h : 150 < q <;> simp [loopBody, h, isCounterEvent]
  · induction n with
    | zero => simp [runEvents, counterTotal]
    | succ n ih =>
        rw [runEvents, counterTotal_append, ih, counterTotal_loopBody]

/-- C6: `setup_telemetry` registers the shutdown hook with `atexit`;
on a fully configured state the hook performs flush-then-shutdown on the
logger, tracer and meter providers in that fixed order, and in any state
each configured provider is flushed, the flush preceding its shutdown. -/
theorem C6_shutdown_order (s : TelemetryState) (p : Provider)
    (h : providerConfigured s p = true) :
    setup_telemetry.atexitRegistered = true ∧
    shutdown ⟨true, true, true⟩ =
      [Action.force_flush Provider.logs, Action.shutdown Provider.logs,
       Action.force_flush Provider.traces, Action.shutdown Provider.traces,
       Action.force_flush Provider.metrics, Action.shutdown Provider.metrics] ∧
    Action.force_flush p ∈ shutdown s ∧
    (shutdown s).indexOf (Action.force_flush p)
        < (shutdown s).indexOf (Action.shutdown p) := by
  refine ⟨rfl, rfl, ?_, ?_⟩ <;>
    · rcases s with ⟨l, t, m⟩
      revert h
      cases l <;> cases t <;> cases m <;> cases p <;> decide

/-- Witness for C6 on the fully configured state and the logger
provider. -/
theorem C6_witness :
    providerConfigured ⟨true, true, true⟩ Provider.logs = true ∧
    (Action.force_flush Provider.logs ∈ shutdown ⟨true, true, true⟩ ∧
     (shutdown ⟨true, true, true⟩).indexOf (Action.force_flush Provider.logs)
        < (shutdown ⟨true, true, true⟩).indexOf (Action.shutdown Provider.logs)) :=
  ⟨rfl,
   (C6_shutdown_order ⟨true, true, true⟩ Provider.logs rfl).2.2.1,
   (C6_shutdown_order ⟨true, true, true⟩ Provider.logs rfl).2.2.2⟩

/-- C7: every loop iteration records exactly one histogram sample, equal
to the latency of that iteration with attribute endpoint=/demo, and the
histogram instrument is "demo.latency" with unit "ms". -/
theorem C7_histogram_sample (count : Nat) (latency : ℚ) :
    (loopBody count latency).filter isHistEvent =
      [Event.histogramRecord "demo.latency" latency [("endpoint", "/demo")]] ∧
    latency_histogram.name = "demo.latency" ∧
    latency_histogram.unit = "ms" := by
  refine ⟨?_, rfl, rfl⟩
  by_cases h : 150 < latency <;> simp [loopBody, h, isHistEvent]

/-- C8: the telemetry configuration is fixed: the exporters target
`http://localhost:4318` under `/v1/traces`, `/v1/metrics`, `/v1/logs`,
and the periodic metric export interval is 5000 ms. -/
theorem C8_fixed_configuration :
    OTLP_ENDPOINT = "http://localhost:4318" ∧
    SERVICE_NAME = "python-demo" ∧
    setup_telemetry.traceEndpoint = "http://localhost:4318/v1/traces" ∧
    setup_telemetry.metricEndpoint = "http://localhost:4318/v1/metrics" ∧
    setup_telemetry.logEndpoint = "http://localhost:4318/v1/logs" ∧
    setup_telemetry.exportIntervalMillis = 5000 :=
  ⟨rfl, rfl, rfl, rfl, rfl, rfl⟩

/-- C9: the only exception caught in `main` is `KeyboardInterrupt`; the
handler logs an info message and prints a farewell line (emitting no
further telemetry), and the exit hook registered by `setup_telemetry`
then flushes every configured provider. -/
theorem C9_interrupt_handling :
    mainHandles PyExc.keyboardInterrupt = true ∧
    (∀ name : String, mainHandles (PyExc.other name) = false) ∧
    Event.printLine "\nShutting down..." ∈ onKeyboardInterrupt ∧
    Event.logRecord LogLevel.info "Shutdown requested by user"
      ∈ onKeyboardInterrupt ∧
    onKeyboardInterrupt.countP isCounterEvent = 0 ∧
    onKeyboardInterrupt.countP (isStartOf "demo-operation") = 0 ∧
    setup_telemetry.atexitRegistered = true ∧
    ∀ p : Provider, Action.force_flush p ∈ shutdown setup_telemetry.state := by
  refine ⟨rfl, fun _ => rfl, ?_, ?_, ?_, ?_, rfl, ?_⟩
  · simp [onKeyboardInterrupt]
  · simp [onKeyboardInterrupt]
  · decide
  · decide
  · intro p
    cases p <;> decide

/-- C10: calling `shutdown` before `setup_telemetry` has run (all three
provider handles still unset) performs no action at all, and in any
state every action it performs targets a configured provider. -/
theorem C10_shutdown_guarded :
    shutdown ⟨false, false, false⟩ = [] ∧
    ∀ s : TelemetryState,
      (shutdown s).all (fun a => providerConfigured s a.provider) = true := by
  refine ⟨rfl, ?_⟩
  rintro ⟨l, t, m⟩
  cases l <;> cases t <;> cases m <;> decide

end Demo
